import Mathlib

set_option maxRecDepth 100000

/-!
Shallow embedding of the implog repository (github.com/infodancer/implog):
the access-log line parser (package httplog), the mysql-backed log store
(package mysql, the revision whose LookupLogFile takes an observed
modification time), and the import coordinator (package main, function
importLog) in both observed revisions (the one in implog.go and the one in
part_001, which differ only in logging, provenance and counter handling).

Machine integers are modelled as Nat/Int with explicit reduction mod 2^32
where the source (SHA-1) overflows.  time.Time values are modelled as Int
seconds; time.Now().AddDate(0, 0, -1) is modelled as subtracting the
constant oneDay.  Fallible Go functions returning (T, error) are modelled
as Except.
-/

/-- Models Go's `error` values produced inside package httplog.  The four
parse constructors correspond to the four failure sites of the parser; the
`other` constructor stands for every further Go error value that the
`error` interface admits (none of which httplog ever constructs). -/
inductive GoErr where
  | timeParse : GoErr
  | requestMethodMissing : GoErr
  | requestURIMissing : GoErr
  | requestProtocolMissing : GoErr
  | other : String → GoErr
deriving DecidableEq, Repr

/-! ### Bytes: UTF-8 encoding of Go strings -/

/-- UTF-8 encoding of one character, as byte values ([]byte(line) in Go). -/
def utf8EncodeCharNats (c : Char) : List Nat :=
  let n := c.toNat
  if n < 128 then [n]
  else if n < 2048 then
    [192 + (n >>> 6), 128 + (n &&& 63)]
  else if n < 65536 then
    [224 + (n >>> 12), 128 + ((n >>> 6) &&& 63), 128 + (n &&& 63)]
  else
    [240 + (n >>> 18), 128 + ((n >>> 12) &&& 63), 128 + ((n >>> 6) &&& 63), 128 + (n &&& 63)]

/-- The bytes of a Go string: UTF-8 encoding of its characters. -/
def utf8Bytes (s : String) : List Nat :=
  s.toList.foldr (fun c acc => utf8EncodeCharNats c ++ acc) []

/-- Whether a byte is a UTF-8 continuation byte (10xxxxxx). -/
def isContByte (b : Nat) : Bool := 128 ≤ b ∧ b ≤ 191

/-- Decoding of a byte sequence into characters, as Go's rune iteration
sees it: a malformed sequence yields U+FFFD and consumes one byte.  The
fuel argument (instantiated with the length of the list) only drives the
recursion. -/
def utf8DecodeAux : Nat → List Nat → List Char
  | 0, _ => []
  | _, [] => []
  | fuel + 1, b :: rest =>
    if b < 128 then
      Char.ofNat b :: utf8DecodeAux fuel rest
    else if 194 ≤ b ∧ b ≤ 223 then
      match rest with
      | b2 :: rest2 =>
        if isContByte b2 then
          Char.ofNat (((b - 192) <<< 6) + (b2 - 128)) :: utf8DecodeAux fuel rest2
        else Char.ofNat 65533 :: utf8DecodeAux fuel rest
      | [] => Char.ofNat 65533 :: utf8DecodeAux fuel rest
    else if 224 ≤ b ∧ b ≤ 239 then
      match rest with
      | b2 :: b3 :: rest3 =>
        let lo2 := if b = 224 then 160 else 128
        let hi2 := if b = 237 then 159 else 191
        if (lo2 ≤ b2 ∧ b2 ≤ hi2) ∧ isContByte b3 then
          Char.ofNat (((b - 224) <<< 12) + ((b2 - 128) <<< 6) + (b3 - 128)) ::
            utf8DecodeAux fuel rest3
        else Char.ofNat 65533 :: utf8DecodeAux fuel rest
      | _ => Char.ofNat 65533 :: utf8DecodeAux fuel rest
    else if 240 ≤ b ∧ b ≤ 244 then
      match rest with
      | b2 :: b3 :: b4 :: rest4 =>
        let lo2 := if b = 240 then 144 else 128
        let hi2 := if b = 244 then 143 else 191
        if (lo2 ≤ b2 ∧ b2 ≤ hi2) ∧ isContByte b3 ∧ isContByte b4 then
          Char.ofNat (((b - 240) <<< 18) + ((b2 - 128) <<< 12) + ((b3 - 128) <<< 6) + (b4 - 128)) ::
            utf8DecodeAux fuel rest4
        else Char.ofNat 65533 :: utf8DecodeAux fuel rest
      | _ => Char.ofNat 65533 :: utf8DecodeAux fuel rest
    else Char.ofNat 65533 :: utf8DecodeAux fuel rest

/-- Decode a byte list into the string a Go range-over-string loop sees. -/
def utf8Decode (bytes : List Nat) : String :=
  String.mk (utf8DecodeAux bytes.length bytes)

/-! ### SHA-1 (crypto/sha1), over Nat with explicit mod 2^32 -/

/-- Truncation to a 32-bit word. -/
def w32 (x : Nat) : Nat := x % 4294967296

/-- 32-bit left rotation. -/
def rotl32 (n x : Nat) : Nat := w32 ((x <<< n) + (x >>> (32 - n)))

/-- Big-endian bytes of a 32-bit word. -/
def be32 (n : Nat) : List Nat :=
  [(n >>> 24) % 256, (n >>> 16) % 256, (n >>> 8) % 256, n % 256]

/-- Big-endian bytes of a 64-bit length field. -/
def be64 (n : Nat) : List Nat :=
  [(n >>> 56) % 256, (n >>> 48) % 256, (n >>> 40) % 256, (n >>> 32) % 256,
   (n >>> 24) % 256, (n >>> 16) % 256, (n >>> 8) % 256, n % 256]

/-- SHA-1 padding: 0x80, zeros to 56 mod 64, then the bit length. -/
def sha1Pad (msg : List Nat) : List Nat :=
  let len := msg.length
  let padZeros := (119 - len % 64) % 64
  msg ++ [128] ++ List.replicate padZeros 0 ++ be64 (len * 8)

/-- Split a byte list into 64-byte blocks (fuel-driven recursion). -/
def chunks64 : Nat → List Nat → List (List Nat)
  | 0, _ => []
  | _, [] => []
  | fuel + 1, l => l.take 64 :: chunks64 fuel (l.drop 64)

/-- Big-endian 32-bit words of a block. -/
def toWords32 : List Nat → List Nat
  | b0 :: b1 :: b2 :: b3 :: rest => (((b0 * 256 + b1) * 256 + b2) * 256 + b3) :: toWords32 rest
  | _ => []

/-- Message-schedule expansion from 16 to 80 words. -/
def sha1Schedule (w0 : List Nat) : List Nat :=
  (List.range 64).foldl
    (fun w _ =>
      let n := w.length
      let x := Nat.xor (Nat.xor (w.getD (n - 3) 0) (w.getD (n - 8) 0))
        (Nat.xor (w.getD (n - 14) 0) (w.getD (n - 16) 0))
      w ++ [rotl32 1 x]) w0

/-- One SHA-1 block. -/
def sha1Block (h : List Nat) (chunk : List Nat) : List Nat :=
  let w := sha1Schedule (toWords32 chunk)
  let h0 := h.getD 0 0
  let h1 := h.getD 1 0
  let h2 := h.getD 2 0
  let h3 := h.getD 3 0
  let h4 := h.getD 4 0
  let st := (List.range 80).foldl
    (fun (st : Nat × Nat × Nat × Nat × Nat) i =>
      let (a, b, c, d, e) := st
      let f :=
        if i < 20 then Nat.lor (Nat.land b c) (Nat.land (4294967295 - b) d)
        else if i < 40 then Nat.xor (Nat.xor b c) d
        else if i < 60 then Nat.lor (Nat.lor (Nat.land b c) (Nat.land b d)) (Nat.land c d)
        else Nat.xor (Nat.xor b c) d
      let k :=
        if i < 20 then 1518500249
        else if i < 40 then 1859775393
        else if i < 60 then 2400959708
        else 3395469782
      let temp := w32 (rotl32 5 a + f + e + k + w.getD i 0)
      (temp, a, rotl32 30 b, c, d)) (h0, h1, h2, h3, h4)
  [w32 (h0 + st.1), w32 (h1 + st.2.1), w32 (h2 + st.2.2.1),
   w32 (h3 + st.2.2.2.1), w32 (h4 + st.2.2.2.2)]

/-- SHA-1 digest (20 bytes) of a byte list, as hasher.Sum(nil) yields. -/
def sha1Bytes (msg : List Nat) : List Nat :=
  let padded := sha1Pad msg
  let h := (chunks64 padded.length padded).foldl sha1Block
    [1732584193, 4023233417, 2562383102, 271733878, 3285377520]
  h.foldr (fun x acc => be32 x ++ acc) []

/-! ### base64.URLEncoding (encoding/base64) -/

/-- The URL-safe base64 alphabet. -/
def b64urlAlphabet : List Char :=
  "ABCDEFGHIJKLMNOPQRSTUVWXYZabcdefghijklmnopqrstuvwxyz0123456789-_".toList

/-- One base64 output character. -/
def b64char (n : Nat) : Char := b64urlAlphabet.getD n (Char.ofNat 65)

/-- base64.URLEncoding.EncodeToString with padding. -/
def base64url : List Nat → String
  | [] => ""
  | [b0] =>
    String.mk [b64char (b0 >>> 2), b64char ((b0 &&& 3) <<< 4)] ++ "=="
  | [b0, b1] =>
    String.mk [b64char (b0 >>> 2), b64char (((b0 &&& 3) <<< 4) + (b1 >>> 4)),
      b64char ((b1 &&& 15) <<< 2)] ++ "="
  | b0 :: b1 :: b2 :: rest =>
    String.mk [b64char (b0 >>> 2), b64char (((b0 &&& 3) <<< 4) + (b1 >>> 4)),
      b64char (((b1 &&& 15) <<< 2) + (b2 >>> 6)), b64char (b2 &&& 63)] ++
    base64url rest

/-! ### Tokenizer (httplog.parseEntryWords) -/

/-- Go unicode.IsSpace on the ASCII range: the whitespace
strings.TrimSpace strips at the ends of a token. -/
def isGoSpace (c : Char) : Bool :=
  c = ' ' ∨ c = Char.ofNat 9 ∨ c = Char.ofNat 10 ∨ c = Char.ofNat 11 ∨
    c = Char.ofNat 12 ∨ c = Char.ofNat 13

/-- strings.TrimSpace: leading and trailing whitespace removed. -/
def goTrim (s : String) : String :=
  String.mk (((s.toList.dropWhile isGoSpace).reverse.dropWhile isGoSpace).reverse)

/-- The double-quote character. -/
def quoteChar : Char := Char.ofNat 34

/-- State of the tokenizer scan: words emitted so far, the word being
built (strings.Builder), and the quoted flag. -/
structure TokState where
  words : List String := []
  word : String := ""
  quoted : Bool := false

/-- One step of parseEntryWords' scan over the runes of the line. -/
def tokStep (st : TokState) (c : Char) : TokState :=
  if c = quoteChar then
    if st.quoted then { words := st.words ++ [st.word], word := "", quoted := false }
    else { st with quoted := true }
  else if c = '[' ∨ c = ']' then
    if st.quoted then { words := st.words ++ [st.word], word := "", quoted := false }
    else { st with quoted := true }
  else if c = ' ' ∧ ¬st.quoted then
    if st.word.length > 0 then { st with words := st.words ++ [goTrim st.word], word := "" }
    else { st with word := "" }
  else { st with word := st.word.push c }

/-- The word list parseEntryWords builds for a line: the scan above plus
the final flush of a trailing non-empty word. -/
def tokWords (line : String) : List String :=
  let st := line.toList.foldl tokStep {}
  if st.word.length > 0 then st.words ++ [goTrim st.word] else st.words

/-- httplog.parseEntryWords: tokenizes a line; its Go signature allows an
error but it always returns a nil error. -/
def parseEntryWords (line : String) : Except GoErr (List String) :=
  Except.ok (tokWords line)

/-! ### Timestamp (httplog.parseHTTPTimestamp via Go time.Parse) -/

/-- Result of time.Parse for the layout used here, with the zone offset in
seconds east of UTC. -/
structure GoTime where
  year : Nat := 0
  month : Nat := 0
  day : Nat := 0
  hour : Nat := 0
  minute : Nat := 0
  second : Nat := 0
  zoneOffset : Int := 0
deriving DecidableEq, Repr

/-- Digit value of a character, if it is an ASCII digit. -/
def readDigit (c : Char) : Option Nat :=
  if '0' ≤ c ∧ c ≤ '9' then some (c.toNat - 48) else none

/-- Go time getnum: two digits when fixed, one or two otherwise. -/
def getnum2 (fixed : Bool) : List Char → Option (Nat × List Char)
  | [] => none
  | c1 :: rest =>
    match readDigit c1 with
    | none => none
    | some d1 =>
      match rest with
      | c2 :: rest2 =>
        match readDigit c2 with
        | some d2 => some (d1 * 10 + d2, rest2)
        | none => if fixed then none else some (d1, rest)
      | [] => if fixed then none else some (d1, [])

/-- Consume an expected literal character. -/
def expectChar (c : Char) : List Char → Option (List Char)
  | x :: r => if x = c then some r else none
  | [] => none

/-- Exactly four digits (Go layout 2006). -/
def get4 : List Char → Option (Nat × List Char)
  | c1 :: c2 :: c3 :: c4 :: r =>
    match readDigit c1, readDigit c2, readDigit c3, readDigit c4 with
    | some d1, some d2, some d3, some d4 => some (((d1 * 10 + d2) * 10 + d3) * 10 + d4, r)
    | _, _, _, _ => none
  | _ => none

/-- Case-insensitive three-letter month name (Go lookup over Jan..Dec). -/
def readMonth : List Char → Option (Nat × List Char)
  | c1 :: c2 :: c3 :: r =>
    let m := String.mk [c1.toLower, c2.toLower, c3.toLower]
    match ["jan", "feb", "mar", "apr", "may", "jun",
           "jul", "aug", "sep", "oct", "nov", "dec"].findIdx? (· = m) with
    | some i => some (i + 1, r)
    | none => none
  | _ => none

/-- Numeric timezone -0700: a sign and four digits, in seconds. -/
def readNumTZ : List Char → Option (Int × List Char)
  | c :: r =>
    if c = '+' ∨ c = '-' then
      match r with
      | h1 :: h2 :: m1 :: m2 :: rest =>
        match readDigit h1, readDigit h2, readDigit m1, readDigit m2 with
        | some a, some b, some x, some y =>
          let secs : Int := ((a * 10 + b) * 3600 + (x * 10 + y) * 60 : Nat)
          some (if c = '-' then -secs else secs, rest)
        | _, _, _, _ => none
      | _ => none
    else none
  | [] => none

/-- Days in a month, with Gregorian leap years (Go daysIn). -/
def daysIn (month year : Nat) : Nat :=
  if month = 2 then
    if year % 4 = 0 ∧ (year % 100 ≠ 0 ∨ year % 400 = 0) then 29 else 28
  else if month = 4 ∨ month = 6 ∨ month = 9 ∨ month = 11 then 30
  else 31

/-- Go time.Parse for the fixed layout "_2/Jan/2006:15:04:05 -0700":
space-padded day, month name, four-digit year, clock fields with range
checks, a numeric zone, no trailing text, and the final day-in-month
check. -/
def goTimeParse (w : List Char) : Option GoTime :=
  let w := match w with
    | ' ' :: r => r
    | _ => w
  match getnum2 false w with
  | none => none
  | some (day, w) =>
  match expectChar '/' w with
  | none => none
  | some w =>
  match readMonth w with
  | none => none
  | some (month, w) =>
  match expectChar '/' w with
  | none => none
  | some w =>
  match get4 w with
  | none => none
  | some (year, w) =>
  match expectChar ':' w with
  | none => none
  | some w =>
  match getnum2 false w with
  | none => none
  | some (hour, w) =>
  if hour ≥ 24 then none else
  match expectChar ':' w with
  | none => none
  | some w =>
  match getnum2 true w with
  | none => none
  | some (minute, w) =>
  if minute ≥ 60 then none else
  match expectChar ':' w with
  | none => none
  | some w =>
  match getnum2 true w with
  | none => none
  | some (second, w) =>
  if second ≥ 60 then none else
  match expectChar ' ' w with
  | none => none
  | some w =>
  match readNumTZ w with
  | none => none
  | some (zone, w) =>
  if w ≠ [] then none else
  if day < 1 ∨ day > daysIn month year then none else
  some { year := year, month := month, day := day, hour := hour,
         minute := minute, second := second, zoneOffset := zone }

/-- httplog.parseHTTPTimestamp. -/
def parseHTTPTimestamp (word : String) : Except GoErr GoTime :=
  match goTimeParse word.toList with
  | some t => Except.ok t
  | none => Except.error GoErr.timeParse

/-! ### strconv.ParseInt(s, 0, 64) -/

/-- Go strconv's lower: ASCII lowercasing by setting bit 0x20. -/
def lowerAscii (c : Char) : Char := Char.ofNat (c.toNat ||| 32)

/-- Digit value of a character in bases up to 36, as Go's ParseUint loop
computes it. -/
def digitValGo (c : Char) : Option Nat :=
  if '0' ≤ c ∧ c ≤ '9' then some (c.toNat - 48)
  else
    let l := lowerAscii c
    if 'a' ≤ l ∧ l ≤ 'z' then some (l.toNat - 97 + 10) else none

/-- Go strconv.underscoreOK: underscores only between digits or between a
base prefix and a digit.  The saw state: 0 after a digit or prefix, 1
after an underscore, 2 after another character, 3 at the start. -/
def underscoreOK (s0 : List Char) : Bool :=
  let s1 := match s0 with
    | c :: r => if c = '-' ∨ c = '+' then r else s0
    | [] => s0
  let pre : List Char × Bool × Bool := match s1 with
    | c0 :: c1 :: r =>
      if c0 = '0' ∧ (lowerAscii c1 = 'b' ∨ lowerAscii c1 = 'o' ∨ lowerAscii c1 = 'x') then
        (r, true, lowerAscii c1 = 'x')
      else (s1, false, false)
    | _ => (s1, false, false)
  let isDig : Char → Bool := fun c =>
    if pre.2.2 then (digitValGo c).elim false (· < 16) else decide ('0' ≤ c ∧ c ≤ '9')
  let final := pre.1.foldl
    (fun (st : Option Nat) c =>
      match st with
      | none => none
      | some saw =>
        if isDig c then some 0
        else if c = '_' then (if saw ≠ 0 then none else some 1)
        else if saw = 1 then none
        else some 2)
    (some (if pre.2.1 then 0 else 3))
  match final with
  | none => false
  | some saw => saw ≠ 1

/-- The digit-accumulation loop of Go's ParseUint: skips underscores (legal
for base-0 calls, validated later), rejects non-digits and digits at or
above the base; returns the value and whether an underscore was seen. -/
def parseUintLoop (base : Nat) (cs : List Char) : Option (Nat × Bool) :=
  cs.foldl
    (fun acc c =>
      match acc with
      | none => none
      | some (n, saw) =>
        if c = '_' then some (n, true)
        else
          match digitValGo c with
          | none => none
          | some d => if d ≥ base then none else some (n * base + d, saw))
    (some (0, false))

/-- Go strconv.ParseUint with base 0: prefix detection (0b/0o/0x needing a
following character, else a leading 0 meaning octal), the digit loop, and
the underscore validation.  none is a syntax error.  The source's
mid-loop overflow cutoff is deferred to the caller's clamping, which
yields the same returned value. -/
def parseUintGo (s0 : List Char) : Option Nat :=
  match s0 with
  | [] => none
  | c0 :: rest =>
    let pr : Nat × List Char :=
      if c0 = '0' then
        match rest with
        | c1 :: rest2 =>
          if lowerAscii c1 = 'b' ∧ rest2 ≠ [] then (2, rest2)
          else if lowerAscii c1 = 'o' ∧ rest2 ≠ [] then (8, rest2)
          else if lowerAscii c1 = 'x' ∧ rest2 ≠ [] then (16, rest2)
          else (8, rest)
        | [] => (8, [])
      else (10, s0)
    match parseUintLoop pr.1 pr.2 with
    | none => none
    | some (n, saw) => if saw ∧ ¬underscoreOK s0 then none else some n

/-- Go strconv.ParseInt(s, 0, 64), as the pair (returned int64, err == nil):
on a syntax error Go returns 0, on a range error the clamped bound; the
callers in ParseLogLine assign the returned value and ignore the error. -/
def parseIntGo (str : String) : Int × Bool :=
  let s0 := str.toList
  match s0 with
  | [] => (0, false)
  | c :: rest =>
    let sg : Bool × List Char :=
      if c = '+' then (false, rest) else if c = '-' then (true, rest) else (false, s0)
    match sg.2 with
    | [] => (0, false)
    | _ =>
      match parseUintGo sg.2 with
      | none => (0, false)
      | some n =>
        if ¬sg.1 ∧ n ≥ 9223372036854775808 then (9223372036854775807, false)
        else if sg.1 ∧ n > 9223372036854775808 then (-9223372036854775808, false)
        else (if sg.1 then -(n : Int) else (n : Int), true)

/-! ### httplog.EntryData and ParseLogLine -/

/-- httplog.EntryData.  Field defaults are the Go zero values.  The fields
logname and logfileModified correspond to the SetLogName and
SetLogFileModified methods that the coordinators and the store call; the
httplog revision declaring them is not among the source files, so they are
modelled from the spec: the §3 provenance fields sourceFile and
sourceFileModifiedAt, set by the coordinator, not the parser. -/
structure EntryData where
  UUID : List Nat := []
  isParseError : Bool := false
  logtype : String := ""
  logfile : String := ""
  logname : String := ""
  logfileModified : Int := 0
  IPAddress : String := ""
  ClientIdent : String := ""
  ClientAuth : String := ""
  Timestamp : Option GoTime := none
  URL : String := ""
  Status : Int := 0
  Size : Int := 0
  Referrer : String := ""
  RequestMethod : String := ""
  RequestURI : String := ""
  RequestProtocol : String := ""
  RequestParams : String := ""
  ClientVersion : String := ""
deriving DecidableEq, Repr

/-- httplog.parseRequestMethod: first word of the request line. -/
def parseRequestMethod (request : String) : Except GoErr String :=
  match parseEntryWords request with
  | Except.error e => Except.error e
  | Except.ok words =>
    if words.length ≥ 1 then Except.ok (words.getD 0 "")
    else Except.error GoErr.requestMethodMissing

/-- httplog.parseRequestURI: the second word of the request line, returned
whole (the query string is not removed).  The source's error message here
reads "request protocol not specified". -/
def parseRequestURI (request : String) : Except GoErr String :=
  match parseEntryWords request with
  | Except.error e => Except.error e
  | Except.ok words =>
    if words.length ≥ 2 then Except.ok (words.getD 1 "")
    else Except.error GoErr.requestURIMissing

/-- strings.Split for a one-character separator: all substrings between
occurrences of the separator. -/
def splitOnChar (s : String) (c : Char) : List String :=
  (s.toList.foldr
    (fun x acc =>
      if x = c then [] :: acc
      else
        match acc with
        | h :: t => (x :: h) :: t
        | [] => [[x]])
    [[]]).map String.mk

/-- httplog.parseRequestParams: the text after the first question mark of
the second request word (strings.Split element 1), else empty. -/
def parseRequestParams (request : String) : Except GoErr String :=
  match parseEntryWords request with
  | Except.error e => Except.error e
  | Except.ok words =>
    if words.length ≥ 2 then
      let uri := splitOnChar (words.getD 1 "") '?'
      if uri.length > 1 then Except.ok (uri.getD 1 "") else Except.ok ""
    else Except.ok ""

/-- httplog.parseRequestProtocol: third word of the request line. -/
def parseRequestProtocol (request : String) : Except GoErr String :=
  match parseEntryWords request with
  | Except.error e => Except.error e
  | Except.ok words =>
    if words.length ≥ 3 then Except.ok (words.getD 2 "")
    else Except.error GoErr.requestProtocolMissing

/-- The first three positional assignments of ParseLogLine (IP, ident,
auth), each guarded by a word-count test. -/
def basicFields (r : EntryData) (words : List String) : EntryData :=
  let r := if words.length ≥ 1 then { r with IPAddress := words.getD 0 "" } else r
  let r := if words.length ≥ 2 then { r with ClientIdent := words.getD 1 "" } else r
  if words.length ≥ 3 then { r with ClientAuth := words.getD 2 "" } else r

/-- The infallible tail of ParseLogLine: the status and size conversions
(whose errors the source assigns to err but never checks), the referrer
and client-version fields, and the final unconditional assignments
isParseError = false and logtype = "HTTP". -/
def finishEntry (r : EntryData) (words : List String) : EntryData :=
  let r := if words.length ≥ 6 then { r with Status := (parseIntGo (words.getD 5 "")).1 } else r
  let r := if words.length ≥ 7 then { r with Size := (parseIntGo (words.getD 6 "")).1 } else r
  let r := if words.length ≥ 8 then { r with Referrer := words.getD 7 "" } else r
  let r := if words.length ≥ 9 then { r with ClientVersion := words.getD 8 "" } else r
  { r with isParseError := false, logtype := "HTTP" }

/-- ParseLogLine after tokenization.  The source guards the timestamp
parse and the request-line parses by two separate but syntactically
identical len(words) >= 5 tests; they are merged into one branch here. -/
def parseWithWords (uuid : List Nat) (words : List String) : Except GoErr EntryData :=
  let r : EntryData := basicFields { UUID := uuid, isParseError := true } words
  if words.length ≥ 5 then
    match parseHTTPTimestamp (words.getD 3 "") with
    | Except.error e => Except.error e
    | Except.ok ts =>
    match parseRequestMethod (words.getD 4 "") with
    | Except.error e => Except.error e
    | Except.ok m =>
    match parseRequestURI (words.getD 4 "") with
    | Except.error e => Except.error e
    | Except.ok u =>
    match parseRequestParams (words.getD 4 "") with
    | Except.error e => Except.error e
    | Except.ok ps =>
    match parseRequestProtocol (words.getD 4 "") with
    | Except.error e => Except.error e
    | Except.ok pr =>
      Except.ok (finishEntry
        { r with
          Timestamp := some ts
          RequestMethod := m
          RequestURI := u
          RequestParams := ps
          RequestProtocol := pr } words)
  else Except.ok (finishEntry r words)

/-- httplog.ParseLogLine: hashes the raw line bytes into UUID, tokenizes
(which cannot fail), and fills the positional fields, erroring out on a
bad timestamp or request line. -/
def ParseLogLine (line : String) : Except GoErr EntryData :=
  let uuid := sha1Bytes (utf8Bytes line)
  match parseEntryWords line with
  | Except.error e => Except.error e
  | Except.ok words => parseWithWords uuid words

/-! ### The mysql log store (the revision whose LookupLogFile takes the
observed modification time).  The database is modelled in memory: tables
as row lists, prepared statements as the queries they run, connectivity
as reliable; the primary-key constraint on LOGENTRY.id is the one failure
modelled, reported with the MySQL duplicate-key message text.  google/uuid
randomness is modelled as a fresh-identifier counter, and the reverse-DNS
enrichment (net.LookupAddr, an external resolver) by its failure result
"unknown". -/

namespace Mysql

/-- A row of the LOGFILE table: id, filename, the NULLable modified
timestamp, and the created timestamp. -/
structure LogFileRow where
  id : String
  filename : String
  modified : Option Int
  created : Int
deriving DecidableEq, Repr

/-- A row of the LOGENTRY fact table, in the column order of insertQuery;
the referrer column receives the referrer dimension id. -/
structure FactRow where
  id : String
  logfile_id : String
  loguri_id : String
  ipaddress : String
  clientident : String
  clientauth : String
  clientversion : String
  requestmethod : String
  requestprotocol : String
  size : Int
  status : Int
  referrer : String
deriving DecidableEq, Repr

/-- The store: the in-memory dimension caches of the LogStore struct, the
four dimension tables, the fact table, and the uuid counter. -/
structure StoreState where
  logfilecache : List (String × String) := []
  ipcache : List (String × String) := []
  uricache : List (String × String) := []
  refercache : List (String × String) := []
  logfileTable : List LogFileRow := []
  ipTable : List (String × String × String) := []
  uriTable : List (String × String) := []
  referrerTable : List (String × String) := []
  factTable : List FactRow := []
  nextId : Nat := 0
deriving DecidableEq, Repr

/-- time.Now().AddDate(0, 0, -1) subtracts one calendar day; in the
Int-seconds time model it subtracts this constant. -/
def oneDay : Int := 86400

/-- uuid.New().String(), modelled as a fresh identifier from the
counter. -/
def genId (n : Nat) : String := "uuid-" ++ toString n

/-- A Go map read m[k]: the stored value, or the zero value "" on a
miss. -/
def lookupCache (cache : List (String × String)) (k : String) : String :=
  match cache.find? (fun p => p.1 = k) with
  | some p => p.2
  | none => ""

/-- LookupURI: cache check, select by natural key, insert on miss. -/
def LookupURI (s : StoreState) (uri : String) : String × StoreState :=
  let r := lookupCache s.uricache uri
  if r ≠ "" then (r, s)
  else
    match s.uriTable.find? (fun p => p.2 = uri) with
    | some p => (p.1, s)
    | none =>
      let id := genId s.nextId
      (id, { s with
        nextId := s.nextId + 1
        uriTable := s.uriTable ++ [(id, uri)]
        uricache := s.uricache ++ [(uri, id)] })

/-- LookupReferrer: cache check, select by natural key, insert on miss. -/
def LookupReferrer (s : StoreState) (referrer : String) : String × StoreState :=
  let r := lookupCache s.refercache referrer
  if r ≠ "" then (r, s)
  else
    match s.referrerTable.find? (fun p => p.2 = referrer) with
    | some p => (p.1, s)
    | none =>
      let id := genId s.nextId
      (id, { s with
        nextId := s.nextId + 1
        referrerTable := s.referrerTable ++ [(id, referrer)]
        refercache := s.refercache ++ [(referrer, id)] })

/-- The reverse-DNS name stored with a new ip row; net.LookupAddr is an
external resolver, modelled by its failure result "unknown". -/
def dnsName (_ip : String) : String := "unknown"

/-- LookupIPAddress: cache check, select by ip, insert (with the resolved
name) on miss. -/
def LookupIPAddress (s : StoreState) (ip : String) : String × StoreState :=
  let r := lookupCache s.ipcache ip
  if r ≠ "" then (r, s)
  else
    match s.ipTable.find? (fun p => p.2.1 = ip) with
    | some p => (p.1, s)
    | none =>
      let id := genId s.nextId
      (id, { s with
        nextId := s.nextId + 1
        ipTable := s.ipTable ++ [(id, ip, dnsName ip)]
        ipcache := s.ipcache ++ [(ip, id)] })

/-- LookupLogFile(logfile, modified): returns the file id, the stored
modification time the coordinator compares against, and the new store
state.  On a cache hit it returns the passed-in time unchanged.  On a
select miss it inserts a new row through the prepared statement
INSERT INTO LOGFILE (id, filename, created) VALUES (?,?,?) — so the
observed time lands in the created column and the modified column stays
NULL — and reports yesterday's time so a new file is processed.  On a hit
a NULL stored time also reads as yesterday; when the observed time is
strictly newer it executes UPDATE LOGFILE SET modified = ? where id = ?,
passing the filename as the id argument, exactly as the source does. -/
def LookupLogFile (s : StoreState) (logfile : String) (modified : Int) (now : Int) :
    String × Int × StoreState :=
  let r := lookupCache s.logfilecache logfile
  if r ≠ "" then (r, modified, s)
  else
    match s.logfileTable.find? (fun row => row.filename = logfile) with
    | none =>
      let id := genId s.nextId
      let s := { s with
        nextId := s.nextId + 1
        logfileTable := s.logfileTable ++ [⟨id, logfile, none, modified⟩]
        logfilecache := s.logfilecache ++ [(logfile, id)] }
      (id, now - oneDay, s)
    | some row =>
      let rowModified := match row.modified with
        | some t => t
        | none => now - oneDay
      if modified > rowModified then
        let s := { s with
          logfileTable := s.logfileTable.map
            (fun q => if q.id = logfile then { q with modified := some modified } else q)
          logfilecache := s.logfilecache ++ [(logfile, row.id)] }
        (row.id, rowModified, s)
      else (row.id, rowModified, s)

/-- WriteHTTPLogEntry: a no-op success on a parse-error entry; otherwise
resolves the dimension ids (their errors are assigned but never checked in
the source) and inserts the fact row, which the LOGENTRY primary key
rejects when the content hash is already present.  The dimension
statements run on the shared connection, so their effects survive the
rejected insert, as in the source. -/
def WriteHTTPLogEntry (now : Int) (s : StoreState) (entry : EntryData) :
    Except String Unit × StoreState :=
  if entry.isParseError then (Except.ok (), s)
  else
    let uuid := base64url entry.UUID
    let look := LookupLogFile s entry.logfile entry.logfileModified now
    let fileID := look.1
    let s := look.2.2
    let s := (LookupIPAddress s entry.IPAddress).2
    let lu := LookupURI s entry.RequestURI
    let uriID := lu.1
    let s := lu.2
    let lr := LookupReferrer s entry.Referrer
    let referrerID := lr.1
    let s := lr.2
    if s.factTable.any (fun q => q.id = uuid) then
      (Except.error ("Error 1062: Duplicate entry " ++ uuid ++ " for key PRIMARY"), s)
    else
      (Except.ok (), { s with factTable := s.factTable ++
        [{ id := uuid, logfile_id := fileID, loguri_id := uriID,
           ipaddress := entry.IPAddress, clientident := entry.ClientIdent,
           clientauth := entry.ClientAuth, clientversion := entry.ClientVersion,
           requestmethod := entry.RequestMethod, requestprotocol := entry.RequestProtocol,
           size := entry.Size, status := entry.Status, referrer := referrerID }] })

end Mysql

/-! ### The import coordinator (package main) -/

/-- The per-file counters of importLog: facts inserted, errors, and the
line counter lc. -/
structure Counters where
  fileInsertCount : Nat := 0
  fileErrorCount : Nat := 0
  lc : Nat := 0
deriving DecidableEq, Repr

/-- A file as the coordinator sees it: its path, its os.Stat modification
time, and its on-disk bytes. -/
structure FileInfo where
  path : String
  modTime : Int
  bytes : List Nat
deriving DecidableEq, Repr

/-- strings.EqualFold: Unicode simple case folding, modelled by ASCII
case folding, exact for the ASCII arguments used in this program. -/
def goEqualFold (a b : String) : Bool :=
  a.toList.map Char.toLower = b.toList.map Char.toLower

/-- Whether the first list is a leading segment of the second. -/
def leadSeg : List Char → List Char → Bool
  | [], _ => true
  | _ :: _, [] => false
  | p :: ps, t :: ts => p = t ∧ leadSeg ps ts

/-- Whether the first list occurs as a contiguous segment of the second. -/
def hasSeg (pat : List Char) : List Char → Bool
  | [] => pat.isEmpty
  | t :: ts => leadSeg pat (t :: ts) || hasSeg pat ts

/-- strings.Contains. -/
def goContains (s sub : String) : Bool :=
  hasSeg sub.toList s.toList

/-- isFileContentGzip: bufio Peek(2) fails with io.EOF on a stream shorter
than two bytes; otherwise the first two bytes are compared with the gzip
magic sequence 31, 139. -/
def isFileContentGzip (bytes : List Nat) : Except String Bool :=
  match bytes with
  | b0 :: b1 :: _ => Except.ok (b0 = 31 ∧ b1 = 139)
  | _ => Except.error "EOF"

/-- Split bytes at newline separators. -/
def splitOnNL (bytes : List Nat) : List (List Nat) :=
  bytes.foldr
    (fun b acc =>
      if b = 10 then [] :: acc
      else
        match acc with
        | h :: t => (b :: h) :: t
        | [] => [[b]])
    [[]]

/-- Drop one trailing carriage return, as bufio.ScanLines does. -/
def dropCR (l : List Nat) : List Nat :=
  match l.getLast? with
  | some 13 => l.dropLast
  | _ => l

/-- The token sequence of bufio.Scanner with ScanLines: lines split at
newlines, one trailing carriage return stripped, and no final empty token
after a terminating newline. -/
def scanLines (bytes : List Nat) : List (List Nat) :=
  let segs := splitOnNL bytes
  let segs := match segs.getLast? with
    | some [] => segs.dropLast
    | _ => segs
  segs.map dropCR

/-- Modelled from the spec: compress/gzip is an external collaborator (§6
calls the gzip magic sniff the only protocol and §2 the decompression
transparent) and its inflate algorithm is not part of this repository.
gzip.NewReader validates the 10-byte member header; the decompressed
stream is modelled as the bytes after that header.  No claim depends on
the content this branch produces. -/
def gzipLines (bytes : List Nat) : Except String (List (List Nat)) :=
  match bytes with
  | 31 :: 139 :: 8 :: rest =>
    if rest.length ≥ 7 then Except.ok (scanLines (rest.drop 7))
    else Except.error "unexpected EOF"
  | _ => Except.error "gzip: invalid header"

/-! The coordinator revision in implog.go. -/
namespace Implog

/-- The provenance the loop attaches to a parsed entry: SetLogFile and
SetLogFileModified. -/
def stamp (file : FileInfo) (e : EntryData) : EntryData :=
  { e with logfile := file.path, logfileModified := file.modTime }

/-- One iteration of the scan loop of implog.go's importLog: a parse error
continues before lc++, a write error increments the error counter, and the
insert counter is incremented unconditionally after the write. -/
def processLine (now : Int) (logtype : String) (file : FileInfo)
    (acc : Mysql.StoreState × Counters) (line : String) : Mysql.StoreState × Counters :=
  if goEqualFold logtype "HTTP" then
    match ParseLogLine line with
    | Except.error _ => acc
    | Except.ok e =>
      let wr := Mysql.WriteHTTPLogEntry now acc.1 (stamp file e)
      let c := acc.2
      let c := match wr.1 with
        | Except.error _ => { c with fileErrorCount := c.fileErrorCount + 1 }
        | Except.ok _ => c
      let c := { c with fileInsertCount := c.fileInsertCount + 1 }
      (wr.2, { c with lc := c.lc + 1 })
  else (acc.1, { acc.2 with lc := acc.2.lc + 1 })

/-- importLog of implog.go: stat (the FileInfo stands for its result),
the LookupLogFile gate that skips when the stored time is not older than
the on-disk time, the gzip sniff, and the scan loop. -/
def importLog (now : Int) (file : FileInfo) (logtype : String) (s : Mysql.StoreState) :
    Except String Unit × Mysql.StoreState × Counters :=
  let look := Mysql.LookupLogFile s file.path file.modTime now
  let modified := look.2.1
  let s := look.2.2
  if modified > file.modTime ∨ modified = file.modTime then
    (Except.ok (), s, {})
  else
    match isFileContentGzip file.bytes with
    | Except.error e => (Except.error e, s, {})
    | Except.ok gzipped =>
      match (if gzipped then gzipLines file.bytes else Except.ok (scanLines file.bytes)) with
      | Except.error e => (Except.error e, s, {})
      | Except.ok ls =>
        let r := (ls.map utf8Decode).foldl (processLine now logtype file) (s, {})
        (Except.ok (), r.1, r.2)

end Implog

/-! The coordinator revision in part_001. -/
namespace Part001

/-- The provenance this revision attaches: SetLogName, SetLogFile,
SetLogFileModified. -/
def stamp (logname : String) (file : FileInfo) (e : EntryData) : EntryData :=
  { e with logname := logname, logfile := file.path, logfileModified := file.modTime }

/-- One iteration of the scan loop of part_001's importLog: a parse error
continues before lc++; a write error whose text does not contain
"Duplicate entry" increments the error counter; the insert counter is
incremented only when the write succeeded. -/
def processLine (now : Int) (logname logtype : String) (file : FileInfo)
    (acc : Mysql.StoreState × Counters) (line : String) : Mysql.StoreState × Counters :=
  if goEqualFold logtype "HTTP" then
    match ParseLogLine line with
    | Except.error _ => acc
    | Except.ok e =>
      let wr := Mysql.WriteHTTPLogEntry now acc.1 (stamp logname file e)
      let c := acc.2
      let c := match wr.1 with
        | Except.error err =>
          if ¬goContains err "Duplicate entry" then
            { c with fileErrorCount := c.fileErrorCount + 1 }
          else c
        | Except.ok _ => { c with fileInsertCount := c.fileInsertCount + 1 }
      (wr.2, { c with lc := c.lc + 1 })
  else (acc.1, { acc.2 with lc := acc.2.lc + 1 })

/-- importLog of part_001: identical pipeline to the implog.go revision up
to logging, with the counter discipline above. -/
def importLog (now : Int) (file : FileInfo) (logname logtype : String)
    (s : Mysql.StoreState) : Except String Unit × Mysql.StoreState × Counters :=
  let look := Mysql.LookupLogFile s file.path file.modTime now
  let modified := look.2.1
  let s := look.2.2
  if modified > file.modTime ∨ modified = file.modTime then
    (Except.ok (), s, {})
  else
    match isFileContentGzip file.bytes with
    | Except.error e => (Except.error e, s, {})
    | Except.ok gzipped =>
      match (if gzipped then gzipLines file.bytes else Except.ok (scanLines file.bytes)) with
      | Except.error e => (Except.error e, s, {})
      | Except.ok ls =>
        let r := (ls.map utf8Decode).foldl (processLine now logname logtype file) (s, {})
        (Except.ok (), r.1, r.2)

end Part001

/-! ### Concrete inputs used by the theorems -/

/-- The well-formed access-log line of spec §8. -/
def wellFormedLine : String :=
  "1.2.3.4 - - [10/Oct/2023:13:55:36 -0700] \"GET /x?y=1 HTTP/1.1\" 200 512 \"http://ref\" \"agent/1.0\""

/-- A line whose status token is not numeric. -/
def badStatusLine : String :=
  "1.2.3.4 - - [10/Oct/2023:13:55:36 -0700] \"GET / HTTP/1.1\" abc 512"

/-- A five-token line whose timestamp token cannot be parsed. -/
def badTsLine : String := "a b c [notatime] x"

/-- A concrete file record used by the coordinator theorems. -/
def fileF : FileInfo := { path := "f", modTime := 5, bytes := [] }

/-- The entry the parser produces for wellFormedLine. -/
def wfEntry : EntryData := ((ParseLogLine wellFormedLine).toOption).getD {}

/-- The store after wellFormedLine has been written once: its content hash
is already present in the fact table. -/
def dupState : Mysql.StoreState :=
  (Mysql.WriteHTTPLogEntry 0 {} (Implog.stamp fileF wfEntry)).2

/-- The duplicate-key error the store reports for a second write of
wellFormedLine. -/
def dupMsg : String :=
  "Error 1062: Duplicate entry " ++ base64url (sha1Bytes (utf8Bytes wellFormedLine)) ++
    " for key PRIMARY"

/-- A persisted LOGFILE row with a NULL modified column, as the insert
path leaves it. -/
def c7Row : Mysql.LogFileRow := { id := "uuid-0", filename := "f", modified := none, created := 0 }

/-- A store holding c7Row with an empty in-process cache, as a later run
sees it. -/
def c7State : Mysql.StoreState := { logfileTable := [c7Row], nextId := 1 }

/-! ### Helper lemmas about the parser -/

theorem basicFields_UUID (r : EntryData) (ws : List String) :
    (basicFields r ws).UUID = r.UUID := by
  unfold basicFields
  repeat' split
  all_goals rfl

theorem finishEntry_UUID (r : EntryData) (ws : List String) :
    (finishEntry r ws).UUID = r.UUID := by
  unfold finishEntry
  repeat' split
  all_goals rfl

theorem finishEntry_isParseError (r : EntryData) (ws : List String) :
    (finishEntry r ws).isParseError = false := by
  unfold finishEntry
  repeat' split
  all_goals rfl

theorem parseWithWords_ok_uuid (uuid : List Nat) (ws : List String) (e : EntryData)
    (h : parseWithWords uuid ws = Except.ok e) : e.UUID = uuid := by
  unfold parseWithWords at h
  split at h
  · repeat' split at h
    all_goals simp only [Except.ok.injEq, reduceCtorEq] at h
    all_goals subst h
    all_goals simp [finishEntry_UUID, basicFields_UUID]
  · simp only [Except.ok.injEq] at h
    subst h
    simp [finishEntry_UUID, basicFields_UUID]

theorem parseWithWords_ok_isParseError (uuid : List Nat) (ws : List String) (e : EntryData)
    (h : parseWithWords uuid ws = Except.ok e) : e.isParseError = false := by
  unfold parseWithWords at h
  split at h
  · repeat' split at h
    all_goals simp only [Except.ok.injEq, reduceCtorEq] at h
    all_goals subst h
    all_goals simp [finishEntry_isParseError]
  · simp only [Except.ok.injEq] at h
    subst h
    simp [finishEntry_isParseError]

theorem parseHTTPTimestamp_error_classified (w : String) (e : GoErr)
    (h : parseHTTPTimestamp w = Except.error e) : e = GoErr.timeParse := by
  unfold parseHTTPTimestamp at h
  split at h
  · cases h
  · cases h; rfl

theorem parseRequestMethod_error_classified (r : String) (e : GoErr)
    (h : parseRequestMethod r = Except.error e) : e = GoErr.requestMethodMissing := by
  unfold parseRequestMethod parseEntryWords at h
  dsimp only at h
  split at h
  · exact Except.noConfusion h
  · injection h with h2
    exact h2.symm

theorem parseRequestURI_error_classified (r : String) (e : GoErr)
    (h : parseRequestURI r = Except.error e) : e = GoErr.requestURIMissing := by
  unfold parseRequestURI parseEntryWords at h
  dsimp only at h
  split at h
  · exact Except.noConfusion h
  · injection h with h2
    exact h2.symm

theorem parseRequestParams_never_errors (r : String) (e : GoErr)
    (h : parseRequestParams r = Except.error e) : False := by
  unfold parseRequestParams parseEntryWords at h
  dsimp only at h
  split at h
  · split at h
    · exact Except.noConfusion h
    · exact Except.noConfusion h
  · exact Except.noConfusion h

theorem parseRequestProtocol_error_classified (r : String) (e : GoErr)
    (h : parseRequestProtocol r = Except.error e) : e = GoErr.requestProtocolMissing := by
  unfold parseRequestProtocol parseEntryWords at h
  dsimp only at h
  split at h
  · exact Except.noConfusion h
  · injection h with h2
    exact h2.symm

theorem lookupLogFile_factTable (s : Mysql.StoreState) (f : String) (m now : Int) :
    (Mysql.LookupLogFile s f m now).2.2.factTable = s.factTable := by
  unfold Mysql.LookupLogFile
  dsimp only
  repeat' split
  all_goals rfl

/-! ### Claim theorems -/

/-- Claim C1, evaluated at its failing input: for the never-before-seen
filename "access_log" in an empty store, LookupLogFile does report the
stored time as one day before the current time (172800 - oneDay = 86400),
but because that reported time is newer than the file's on-disk
modification time 10, importLog skips the file entirely — success, no
lines scanned, no facts written — although the claim (and the source's own
comment "return yesterday's date to ensure the new filw is processed")
says a brand-new file is always processed. -/
theorem c1_fresh_old_file_skipped :
    (Mysql.LookupLogFile {} "access_log" 10 172800).2.1 = 172800 - Mysql.oneDay ∧
    (Implog.importLog 172800 { path := "access_log", modTime := 10, bytes := utf8Bytes "x" }
        "HTTP" {}).1 = Except.ok () ∧
    (Implog.importLog 172800 { path := "access_log", modTime := 10, bytes := utf8Bytes "x" }
        "HTTP" {}).2.2 = ({} : Counters) ∧
    (Implog.importLog 172800 { path := "access_log", modTime := 10, bytes := utf8Bytes "x" }
        "HTTP" {}).2.1.factTable = [] :=
  ⟨by decide, rfl, rfl, rfl⟩

/-- Claim C2 counterexample: parsing the claim's well-formed line yields
RequestURI "/x?y=1", not "/x" — the query string is not split off the
URI by parseRequestURI. -/
theorem c2_uri_keeps_query :
    (ParseLogLine wellFormedLine).toOption.map (fun e => e.RequestURI) ≠ some "/x" := by
  decide

/-- Claim C2 as amended: parsing the well-formed line yields
IPAddress=1.2.3.4, RequestMethod=GET, RequestURI=/x?y=1 (the query string
remains part of the URI; only RequestParams receives the text after the
first question mark), RequestParams=y=1, RequestProtocol=HTTP/1.1,
Status=200, Size=512, Referrer=http://ref, and isParseError=false. -/
theorem c2_wellformed_parse :
    (ParseLogLine wellFormedLine).toOption.map
      (fun e => (e.IPAddress, e.RequestMethod, e.RequestURI, e.RequestParams)) =
      some ("1.2.3.4", "GET", "/x?y=1", "y=1") ∧
    (ParseLogLine wellFormedLine).toOption.map
      (fun e => (e.RequestProtocol, e.Status, e.Size)) = some ("HTTP/1.1", 200, 512) ∧
    (ParseLogLine wellFormedLine).toOption.map
      (fun e => (e.Referrer, e.isParseError)) = some ("http://ref", false) :=
  ⟨by decide, by decide, by decide⟩

/-- Claim C3 counterexample: the three-token line "a b c" parses without
error and the returned entry has isParseError = false (not true as
claimed), so the store's fact write would not skip it. -/
theorem c3_short_line_not_marked :
    (ParseLogLine "a b c").toOption.map (fun e => e.isParseError) = some false := by
  decide

/-- Claim C3 as amended: every line that tokenizes into fewer than 4 words
parses successfully — ParseLogLine returns an entry with
isParseError = false whose hash is still computed from the raw line bytes
— so such an entry is eligible for persistence rather than exempt from
it.  (A structurally unparseable timestamp or request line instead makes
ParseLogLine return an error and no entry at all, so nothing is persisted
for it.) -/
theorem c3_short_line_parses (line : String) (h : (tokWords line).length < 4) :
    (ParseLogLine line).toOption.map (fun e => (e.isParseError, e.UUID)) =
      some (false, sha1Bytes (utf8Bytes line)) := by
  have h5 : ¬(tokWords line).length ≥ 5 := by omega
  unfold ParseLogLine parseEntryWords
  dsimp only
  unfold parseWithWords
  rw [if_neg h5]
  simp [Except.toOption, finishEntry_isParseError, finishEntry_UUID, basicFields_UUID]

/-- Witness for the amended claim C3 at the concrete line "a b c". -/
theorem c3_short_line_parses_witness :
    (tokWords "a b c").length < 4 ∧
    (ParseLogLine "a b c").toOption.map (fun e => (e.isParseError, e.UUID)) =
      some (false, sha1Bytes (utf8Bytes "a b c")) :=
  ⟨by decide, c3_short_line_parses "a b c" (by decide)⟩

/-- Claim C4: for every entry with isParseError = true, WriteHTTPLogEntry
returns success and leaves the store untouched — no dimension row is
created or looked up and no fact row is inserted. -/
theorem c4_write_parse_error_noop (now : Int) (s : Mysql.StoreState) (e : EntryData)
    (h : e.isParseError = true) :
    Mysql.WriteHTTPLogEntry now s e = (Except.ok (), s) := by
  unfold Mysql.WriteHTTPLogEntry
  rw [if_pos h]

/-- Witness for claim C4 at a concrete parse-error entry and empty
store. -/
theorem c4_write_parse_error_noop_witness :
    ({ isParseError := true } : EntryData).isParseError = true ∧
    Mysql.WriteHTTPLogEntry 0 {} { isParseError := true } = (Except.ok (), {}) :=
  ⟨rfl, c4_write_parse_error_noop 0 {} { isParseError := true } rfl⟩

/-- Claim C5 counterexample, on the importLog revision in implog.go:
writing wellFormedLine against a store that already holds its content
hash is rejected as a duplicate, yet that loop iteration increments the
per-file error counter (the duplicate is counted as a failure) and also
increments the per-file inserted counter although the write did not
succeed. -/
theorem c5_implog_counts_duplicate :
    (Mysql.WriteHTTPLogEntry 0 dupState (Implog.stamp fileF wfEntry)).1 =
      Except.error dupMsg ∧
    goContains dupMsg "Duplicate entry" = true ∧
    (Implog.processLine 0 "HTTP" fileF (dupState, {}) wellFormedLine).2.fileErrorCount = 1 ∧
    (Implog.processLine 0 "HTTP" fileF (dupState, {}) wellFormedLine).2.fileInsertCount = 1 :=
  ⟨rfl, by decide, by decide, by decide⟩

/-- Claim C5 as amended: in the part_001 revision of importLog a
duplicate-content-hash rejection is not counted as a failure and the
per-file inserted counter is incremented exactly on successful writes,
while in the implog.go revision every write error (a duplicate rejection
included) increments the error counter and the inserted counter is
incremented regardless of the write's outcome. -/
theorem c5_counting (now : Int) (ln lt : String) (file : FileInfo)
    (s : Mysql.StoreState) (c : Counters) (line : String) (e : EntryData) (msg : String)
    (hlt : goEqualFold lt "HTTP" = true)
    (hp : ParseLogLine line = Except.ok e) :
    (((Mysql.WriteHTTPLogEntry now s (Part001.stamp ln file e)).1 = Except.error msg ∧
        goContains msg "Duplicate entry" = true) →
      (Part001.processLine now ln lt file (s, c) line).2.fileErrorCount = c.fileErrorCount ∧
      (Part001.processLine now ln lt file (s, c) line).2.fileInsertCount = c.fileInsertCount) ∧
    ((Mysql.WriteHTTPLogEntry now s (Part001.stamp ln file e)).1 = Except.ok () →
      (Part001.processLine now ln lt file (s, c) line).2.fileInsertCount =
        c.fileInsertCount + 1) ∧
    ((Mysql.WriteHTTPLogEntry now s (Implog.stamp file e)).1 = Except.error msg →
      (Implog.processLine now lt file (s, c) line).2.fileErrorCount = c.fileErrorCount + 1 ∧
      (Implog.processLine now lt file (s, c) line).2.fileInsertCount = c.fileInsertCount + 1) := by
  refine ⟨?_, ?_, ?_⟩
  · rintro ⟨herr, hdup⟩
    unfold Part001.processLine
    rw [if_pos hlt, hp]
    dsimp only
    rw [herr]
    dsimp only
    rw [if_neg (by simp [hdup])]
    exact ⟨rfl, rfl⟩
  · intro hok
    unfold Part001.processLine
    rw [if_pos hlt, hp]
    dsimp only
    rw [hok]
  · intro herr
    unfold Implog.processLine
    rw [if_pos hlt, hp]
    dsimp only
    rw [herr]
    dsimp only
    exact ⟨rfl, rfl⟩

/-- Witness for the amended claim C5: the duplicate scenario evaluated
concretely on the part_001 loop — the duplicate write leaves both
counters untouched. -/
theorem c5_counting_witness :
    goEqualFold "HTTP" "HTTP" = true ∧
    ParseLogLine wellFormedLine = Except.ok wfEntry ∧
    (Mysql.WriteHTTPLogEntry 0 dupState (Part001.stamp "" fileF wfEntry)).1 =
      Except.error dupMsg ∧
    goContains dupMsg "Duplicate entry" = true ∧
    ((Part001.processLine 0 "" "HTTP" fileF (dupState, {}) wellFormedLine).2.fileErrorCount =
        ({} : Counters).fileErrorCount ∧
      (Part001.processLine 0 "" "HTTP" fileF (dupState, {}) wellFormedLine).2.fileInsertCount =
        ({} : Counters).fileInsertCount) :=
  ⟨rfl, rfl, rfl, by decide,
    (c5_counting 0 "" "HTTP" fileF dupState {} wellFormedLine wfEntry dupMsg rfl rfl).1
      ⟨rfl, by decide⟩⟩

/-- Claim C6 counterexample: the line whose status token is "abc" parses
without error; its Status field is 0 — not a -1/absent sentinel — and the
entry is not treated as a parse error, so it remains eligible for
persistence. -/
theorem c6_bad_status_zero :
    (ParseLogLine badStatusLine).toOption.map (fun e => (e.Status, e.isParseError)) =
      some (0, false) := by
  decide

/-- Claim C6 as amended: a missing status or size token leaves the field
at the zero value 0, and a non-numeric token also yields 0 because
strconv.ParseInt returns 0 with an error that ParseLogLine assigns but
never checks; in neither case is the line treated as a parse error. -/
theorem c6_status_size_zero_semantics :
    (ParseLogLine badStatusLine).toOption.map (fun e => (e.Status, e.Size, e.isParseError)) =
      some (0, 512, false) ∧
    (ParseLogLine "a b c").toOption.map (fun e => (e.Status, e.Size)) = some (0, 0) ∧
    parseIntGo "abc" = (0, false) :=
  ⟨by decide, by decide, by decide⟩

/-- Claim C7, evaluated at its failing input: the store holds a LOGFILE
row for filename "f" (id "uuid-0", NULL modified column) and the cache is
empty; LookupLogFile is called with an observed time 200000 that is
strictly newer than the stored time it computes (86400, yesterday's
default for NULL), yet after the call the persisted row is unchanged —
the UPDATE runs with the filename bound to the id column
(updateLogFile.Exec(modified, logfile) against
"UPDATE LOGFILE SET modified = ? where id = ?"), matches no row, and the
persisted modification time is never advanced. -/
theorem c7_update_never_persists :
    (Mysql.LookupLogFile c7State "f" 200000 172800).2.1 = 86400 ∧
    ((200000 : Int) > 86400) ∧
    (Mysql.LookupLogFile c7State "f" 200000 172800).2.2.logfileTable = [c7Row] :=
  ⟨by decide, by decide, by decide⟩

/-- Claim C8: parsing is deterministic — the parser is a pure function of
the raw line — and every entry it returns carries as its UUID exactly the
SHA-1 of the raw line bytes, computed before tokenization, whatever the
parse outcome. -/
theorem c8_deterministic_hash (line : String) :
    ParseLogLine line = ParseLogLine line ∧
    ((ParseLogLine line).toOption.map (fun e => e.UUID)).getD (sha1Bytes (utf8Bytes line)) =
      sha1Bytes (utf8Bytes line) := by
  refine ⟨rfl, ?_⟩
  unfold ParseLogLine parseEntryWords
  dsimp only
  cases h : parseWithWords (sha1Bytes (utf8Bytes line)) (tokWords line) with
  | error e => simp [Except.toOption]
  | ok e => simp [Except.toOption, parseWithWords_ok_uuid _ _ _ h]

/-- Claim C9: tokenization is total — parseEntryWords succeeds on every
input — so ParseLogLine can fail only out of timestamp parsing or
request-line sub-parsing. -/
theorem c9_tokenizer_total :
    (∀ s : String, (parseEntryWords s).isOk = true) ∧
    (∀ (line : String) (err : GoErr), ParseLogLine line = Except.error err →
      err = GoErr.timeParse ∨ err = GoErr.requestMethodMissing ∨
        err = GoErr.requestURIMissing ∨ err = GoErr.requestProtocolMissing) := by
  constructor
  · intro s
    rfl
  · intro line err h
    unfold ParseLogLine parseEntryWords at h
    dsimp only at h
    unfold parseWithWords at h
    split at h
    · split at h
      · injection h with h2
        subst h2
        exact Or.inl (parseHTTPTimestamp_error_classified _ _ (by assumption))
      · split at h
        · injection h with h2
          subst h2
          exact Or.inr (Or.inl (parseRequestMethod_error_classified _ _ (by assumption)))
        · split at h
          · injection h with h2
            subst h2
            exact Or.inr (Or.inr (Or.inl (parseRequestURI_error_classified _ _ (by assumption))))
          · split at h
            · injection h with h2
              subst h2
              exact (parseRequestParams_never_errors _ _ (by assumption)).elim
            · split at h
              · injection h with h2
                subst h2
                exact Or.inr (Or.inr (Or.inr
                  (parseRequestProtocol_error_classified _ _ (by assumption))))
              · exact Except.noConfusion h
    · exact Except.noConfusion h

/-- Witness for claim C9: tokenizing "x" succeeds, and the error of the
concrete bad-timestamp line is classified by the theorem. -/
theorem c9_tokenizer_total_witness :
    (parseEntryWords "x").isOk = true ∧
    (GoErr.timeParse = GoErr.timeParse ∨ GoErr.timeParse = GoErr.requestMethodMissing ∨
      GoErr.timeParse = GoErr.requestURIMissing ∨
      GoErr.timeParse = GoErr.requestProtocolMissing) :=
  ⟨c9_tokenizer_total.1 "x", c9_tokenizer_total.2 badTsLine GoErr.timeParse (by rfl)⟩

/-- Claim C10: for every file whose content is shorter than two bytes, if
the incremental gate lets the file through, the two-byte gzip peek fails
with EOF and importLog aborts the file's pipeline with that error before
scanning any line: the fact table is exactly what it was after the gate's
lookup and the per-file counters stay zero. -/
theorem c10_short_file_aborts (now : Int) (file : FileInfo) (lt : String)
    (s : Mysql.StoreState)
    (hshort : file.bytes.length < 2)
    (hgate : (Mysql.LookupLogFile s file.path file.modTime now).2.1 < file.modTime) :
    (Implog.importLog now file lt s).1 = Except.error "EOF" ∧
    (Implog.importLog now file lt s).2.1.factTable = s.factTable ∧
    (Implog.importLog now file lt s).2.2 = ({} : Counters) := by
  have hgz : isFileContentGzip file.bytes = Except.error "EOF" := by
    unfold isFileContentGzip
    cases hb : file.bytes with
    | nil => rfl
    | cons b0 t =>
      rw [hb] at hshort
      cases t with
      | nil => rfl
      | cons b1 t2 =>
        simp only [List.length_cons] at hshort
        omega
  have hcond : ¬((Mysql.LookupLogFile s file.path file.modTime now).2.1 > file.modTime ∨
      (Mysql.LookupLogFile s file.path file.modTime now).2.1 = file.modTime) := by
    push_neg
    exact ⟨by omega, by omega⟩
  unfold Implog.importLog
  dsimp only
  rw [if_neg hcond, hgz]
  exact ⟨rfl, lookupLogFile_factTable s file.path file.modTime now, rfl⟩

/-- Witness for claim C10 at a concrete empty file that passes the
incremental gate. -/
theorem c10_short_file_aborts_witness :
    ({ path := "g", modTime := 10, bytes := [] } : FileInfo).bytes.length < 2 ∧
    (Mysql.LookupLogFile {} "g" 10 86401).2.1 < (10 : Int) ∧
    ((Implog.importLog 86401 { path := "g", modTime := 10, bytes := [] } "HTTP" {}).1 =
        Except.error "EOF" ∧
      (Implog.importLog 86401 { path := "g", modTime := 10, bytes := [] } "HTTP"
          {}).2.1.factTable = ({} : Mysql.StoreState).factTable ∧
      (Implog.importLog 86401 { path := "g", modTime := 10, bytes := [] } "HTTP" {}).2.2 =
        ({} : Counters)) :=
  ⟨by decide, by decide,
    c10_short_file_aborts 86401 { path := "g", modTime := 10, bytes := [] } "HTTP" {}
      (by decide) (by decide)⟩
